import Mathlib

/-! Shallow embedding of `src/modules/review.py` (class `DomainReview`).

Pure data transformations are translated directly from the source. Each
network-facing call site is parameterised by the value it observed (HTTP
status, parsed body, raised-or-not), and Python exceptions that escape a
function are modelled with `Except`. Machine-level effects (the HTTP
requests themselves, printing, the webdriver) are outside the model; the
decision logic that consumes their results is translated in full. -/

/-- Python exceptions that can escape the translated functions. -/
inductive PyErr
| typeError
| nameError (missing : String)
| webDriverError
deriving DecidableEq

/-- Python substring membership on character lists: `needle in hay` holds when
`needle` occurs contiguously inside `hay`. -/
def listIn (needle hay : List Char) : Bool :=
  (List.range (hay.length + 1)).any (fun i => decide ((hay.drop i).take needle.length = needle))

/-- Python's `needle in hay` on strings (contiguous-substring test), as used at
line 475 of review.py: `if domain_name in malware_domains:`. -/
def pyStrIn (needle hay : String) : Bool :=
  listIn needle.data hay.data

/-- Python `s.split(' ')[0]`, as applied to `last_resolved` timestamps at
line 498 of review.py: the characters before the first space. -/
def pySplitFirst (s : String) : String :=
  String.mk (s.data.takeWhile (fun c => c ≠ ' '))

/-- Python `', '.join(l)`. -/
def joinComma : List String → String
  | [] => ""
  | [s] => s
  | s :: rest => s ++ ", " ++ joinComma rest

/-- Python `s.lower()` (ASCII, which covers every category and blacklist
entry involved): each character lower-cased. -/
def pyLower (s : String) : String :=
  String.mk (s.data.map Char.toLower)

/-- Python `s.capitalize()`: first character upper-cased, all remaining
characters lower-cased. -/
def pyCapitalize (s : String) : String :=
  match s.data with
  | [] => ""
  | c :: rest => String.mk (c.toUpper :: rest.map Char.toLower)

/-- One entry of the VirusTotal `resolutions` list (line 497 of review.py). -/
structure Resolution where
  ip_address : String
  last_resolved : String
deriving DecidableEq

/-- The fields of the VirusTotal domain-report JSON that check_domain_status
reads; `none` models an absent key (the source guards each field with a
`'key' in vt_results` test before use). -/
structure VtJson where
  categories : Option (List String)
  detected_downloaded_samples : Option (List String)
  detected_urls : Option (List String)
  resolutions : Option (List Resolution)
deriving DecidableEq

/-- A Python value handed to `list.extend`: extending with a list appends its
elements, extending with a string appends its characters one by one. -/
inductive PyStrIterable
| ofList : List String → PyStrIterable
| ofStr : String → PyStrIterable
deriving DecidableEq

def PyStrIterable.toItems : PyStrIterable → List String
| .ofList l => l
| .ofStr s => s.data.map (fun c => String.mk [c])

/-- The values the per-source check methods hand back to check_domain_status
for one domain, on the paths where they return:

* `vt`: check_virustotal's return; `none` when its request or `req.json()`
  raised inside its own try/except (lines 93-97).
* `cymon`: check_cymon's Boolean verdict per IP address (lines 283-299).
* `bluecoat`: check_bluecoat returns the DOM element's `.text` — a string,
  not a list (line 203-206).
* `websense`: `[]` on its failure paths, the scraped table-cell text (a
  string) on success (lines 318-381).
* the remaining scrapers return lists of category strings, `[]` from their
  own exception handlers. -/
structure SourceResults where
  vt : Option VtJson
  cymon : String → Bool
  xforce : List String
  talos : List String
  bluecoat : String
  fortiguard : List String
  opendns : List String
  trendmicro : List String
  mxtoolbox : List String
  websense : PyStrIterable

/-- The per-domain dictionary assembled at lines 537-551 of review.py. Note
that the source stores the joined bad categories under the key `'all'` and
the joined full aggregate under `'bad'`. -/
structure Report where
  burned : Bool
  burned_explanation : String
  health_dns : String
  categories_all : String
  categories_bad : String
  categories_talos : String
  categories_xforce : String
  categories_opendns : String
  categories_bluecoat : String
  categories_mxtoolbox : String
  categories_fortiguard : String
  categories_trendmicro : String
  categories_websense : String
deriving DecidableEq

/-- The fields of a Domain model record that check_domain_status reads. -/
structure DomainRecord where
  name : String
  health_status : String
deriving DecidableEq

/-- The class attribute `blacklisted` (lines 57-59 of review.py): categories we
don't want to see, kept lowercase. -/
def blacklisted : List String :=
  ["phishing", "web ads/analytics", "suspicious", "shopping", "placeholders",
   "pornography", "spam", "gambling", "scam/questionable/illegal",
   "malicious sources/malnets"]

/-- Line 531 of review.py: `category.lower() in self.blacklisted`. -/
def blacklistMatch (category : String) : Bool :=
  blacklisted.contains (pyLower category)

/-- Lines 529-532 of review.py: collect `category.capitalize()` for every
aggregated category whose lower-casing is in the blacklist. -/
def badCategories (domain_categories : List String) : List String :=
  (domain_categories.filter (fun c => blacklistMatch c)).map pyCapitalize

/-- The burn decision threads the pair (burned, burned_explanations). -/
abbrev BurnState := Bool × List String

/-- Lines 473-478 of review.py: `if malware_domains:` (None and the empty
string are both falsy) then `if domain_name in malware_domains:` — a
substring test on the whole feed text. -/
def malwareStep (malware_domains : Option String) (domain_name : String) (s : BurnState) :
    BurnState :=
  match malware_domains with
  | none => s
  | some feed =>
      if feed = "" then s
      else if pyStrIn domain_name feed then (true, s.2 ++ ["Flagged by malwaredomains.com"])
      else s

/-- Lines 484-488 of review.py: non-empty `detected_downloaded_samples`. -/
def samplesStep (vt : VtJson) (s : BurnState) : BurnState :=
  match vt.detected_downloaded_samples with
  | some samples =>
      if 0 < samples.length then (true, s.2 ++ ["Tied to a VirusTotal detected malware sample"])
      else s
  | none => s

/-- Lines 489-493 of review.py: non-empty `detected_urls`. -/
def urlsStep (vt : VtJson) (s : BurnState) : BurnState :=
  match vt.detected_urls with
  | some urls =>
      if 0 < urls.length then (true, s.2 ++ ["Tied to a VirusTotal detected URL"])
      else s
  | none => s

/-- Lines 533-535 of review.py: `if bad_categories:`. -/
def categoryStep (bad_categories : List String) (s : BurnState) : BurnState :=
  if 0 < bad_categories.length then (true, s.2 ++ ["Tagged with a bad category"])
  else s

/-- Apply a list of burn rules in order to a state. -/
def applyChain (steps : List (BurnState → BurnState)) (s : BurnState) : BurnState :=
  steps.foldl (fun st f => f st) s

/-- The four rules of check_domain_status that touch `burned` and
`burned_explanations`, in source order. -/
def burnSteps (malware_domains : Option String) (domain_name : String) (vt : VtJson)
    (bad_categories : List String) : List (BurnState → BurnState) :=
  [malwareStep malware_domains domain_name, samplesStep vt, urlsStep vt,
   categoryStep bad_categories]

/-- The burn state entering report assembly: the four rules applied to the
initial state `burned = False`, `burned_explanations = []` (lines 468, 472). -/
def burnOutcome (malware_domains : Option String) (domain_name : String) (vt : VtJson)
    (bad_categories : List String) : BurnState :=
  applyChain (burnSteps malware_domains domain_name vt bad_categories) (false, [])

/-- The condition under which the malware-feed rule fires. -/
def malwareFlagged (malware_domains : Option String) (domain_name : String) : Bool :=
  match malware_domains with
  | none => false
  | some feed => if feed = "" then false else pyStrIn domain_name feed

/-- The condition under which the detected-samples rule fires. -/
def samplesFlagged (vt : VtJson) : Bool :=
  match vt.detected_downloaded_samples with
  | some samples => decide (0 < samples.length)
  | none => false

/-- The condition under which the detected-URLs rule fires. -/
def urlsFlagged (vt : VtJson) : Bool :=
  match vt.detected_urls with
  | some urls => decide (0 < urls.length)
  | none => false

/-- The pair (burned_dns, bad_addresses) built by the loop at lines 500-503 of
review.py over the (address, date) pairs extracted from `resolutions`. -/
def dnsFold (cymon : String → Bool) (ip_addresses : List (String × String)) :
    Bool × List String :=
  ip_addresses.foldl
    (fun st address =>
      if cymon address.1 then (true, st.2 ++ [address.1 ++ "/" ++ address.2]) else st)
    (false, [])

structure DnsResult where
  burned_dns : Bool
  health_dns : String
deriving DecidableEq

/-- Lines 494-508 of review.py: extract passive-DNS (address, date) pairs from
the VirusTotal JSON (date = `last_resolved.split(' ')[0]`), check each address
with check_cymon, and format `health_dns`. -/
def dnsScan (vt : VtJson) (cymon : String → Bool) : DnsResult :=
  let ip_addresses : List (String × String) :=
    (vt.resolutions.getD []).map
      (fun address => (address.ip_address, pySplitFirst address.last_resolved))
  let scan := dnsFold cymon ip_addresses
  { burned_dns := scan.1
    health_dns :=
      if scan.1 then "Flagged DNS (" ++ joinComma scan.2 ++ ")" else "Healthy" }

/-- Lines 481-482 and 509-527 of review.py: `domain_categories` starts as the
VirusTotal `categories` value (or stays `[]` when the key is absent) and is
then extended with each source's result in order. `check_bluecoat` returns a
string, so its `extend` appends one-character strings. At line 523 the source
runs `domain_categories.extend(domain_categories)` — the list is extended
with itself, and the `mxtoolbox_results` computed at line 522 are never
added. Finally `list(set(...))` deduplicates; Python's set order is
unspecified, `List.dedup` is the representative used here, and facts about
the aggregate are stated up to membership. -/
def aggregateCategories (vt : VtJson) (src : SourceResults) : List String :=
  let afterTrendmicro :=
    vt.categories.getD [] ++ src.xforce ++ src.talos ++
      (PyStrIterable.ofStr src.bluecoat).toItems ++ src.fortiguard ++ src.opendns ++
      src.trendmicro
  ((afterTrendmicro ++ afterTrendmicro) ++ src.websense.toItems).dedup

/-- Lines 459-551 of check_domain_status for one evaluated domain, given the
VirusTotal JSON `vt` (already known to be a dict) and the other sources'
returned values: the report dictionary stored into `lab_results[domain]`. -/
def evalReport (malware_domains : Option String) (domain_name : String) (vt : VtJson)
    (src : SourceResults) : Report :=
  let domain_categories := aggregateCategories vt src
  let bad_categories := badCategories domain_categories
  let burn := burnOutcome malware_domains domain_name vt bad_categories
  let dns := dnsScan vt src.cymon
  { burned := burn.1
    burned_explanation := joinComma burn.2
    health_dns := dns.health_dns
    categories_all := joinComma bad_categories
    categories_bad := joinComma domain_categories
    categories_talos := joinComma src.talos
    categories_xforce := joinComma src.xforce
    categories_opendns := joinComma src.opendns
    categories_bluecoat := joinComma (PyStrIterable.ofStr src.bluecoat).toItems
    categories_mxtoolbox := joinComma src.mxtoolbox
    categories_fortiguard := joinComma src.fortiguard
    categories_trendmicro := joinComma src.trendmicro
    categories_websense := joinComma src.websense.toItems }

/-- The evaluation of one non-Healthy domain. When check_virustotal returned
None, line 481 evaluates `'categories' in vt_results` with `vt_results = None`
and raises TypeError (argument of type NoneType is not iterable); the
malware-feed check at lines 473-478 ran before that but only updated local
state which is then lost, so returning the error directly is observationally
identical. -/
def evalDomain (malware_domains : Option String) (domain_name : String)
    (src : SourceResults) : Except PyErr Report :=
  match src.vt with
  | none => Except.error PyErr.typeError
  | some vt => Except.ok (evalReport malware_domains domain_name vt src)

/-- The loop of check_domain_status (lines 455-554). For each domain:
lines 467-470 set `burned = False` exactly when `health_status != 'Healthy'`,
and line 471 runs the evaluation only in that case, so a Healthy domain is
skipped. For an evaluated domain, after the report is stored into
`lab_results[domain]`, line 553 evaluates `sleep(self.request_delay)` — the
module does `import time` but never binds `sleep`, so this raises
NameError and abandons lab_results. -/
def runPass (malware_domains : Option String) (acc : List (DomainRecord × Report)) :
    List (DomainRecord × SourceResults) → Except PyErr (List (DomainRecord × Report))
| [] => Except.ok acc
| d :: rest =>
    if d.1.health_status ≠ "Healthy" then
      match evalDomain malware_domains d.1.name d.2 with
      | Except.error e => Except.error e
      | Except.ok _r => Except.error (PyErr.nameError "sleep")
    else
      runPass malware_domains acc rest

/-- check_domain_status run over the queryset with the initial empty
`lab_results` (line 455 of review.py). `malware_domains` is the result of
download_malware_domains (line 456). -/
def check_domain_status (malware_domains : Option String)
    (domains : List (DomainRecord × SourceResults)) :
    Except PyErr (List (DomainRecord × Report)) :=
  runPass malware_domains [] domains

/-- Lines 434-443 of review.py: the feed text on HTTP 200, None otherwise. -/
def download_malware_domains (status : Nat) (body : String) : Option String :=
  if status = 200 then some body else none

/-- Lines 68-72 of review.py: `request_delay` comes from
`settings.DOMAINCHECK_CONFIG['sleep_time']`; when that lookup raises, the
fallback 20 is used. -/
def requestDelay (sleep_time_setting : Option Nat) : Nat :=
  match sleep_time_setting with
  | some t => t
  | none => 20

/-- What check_ibm_xforce observed from its HTTP request. -/
inductive XforceOutcome
| ok (cats : List String)
| status (code : Nat)
| exn
deriving DecidableEq

/-- Lines 124-153 of review.py. On `req.ok` the keys of
`response['result']['cats']` are appended (or 'Uncategorized' when that dict
is falsy); a 404 yields 'Unknown'; another status prints a warning and falls
through to return the empty list. When the request itself raises, the bare
`except:` handler at lines 151-152 runs
`print('...'.format(error))` — but no name `error` is bound in that scope
(the handler has no `as error` clause), so the handler itself raises
NameError, which escapes the method. -/
def check_ibm_xforce (resp : XforceOutcome) : Except PyErr (List String) :=
  match resp with
  | .ok cats => Except.ok (if cats.isEmpty then ["Uncategorized"] else cats)
  | .status code => if code = 404 then Except.ok ["Unknown"] else Except.ok []
  | .exn => Except.error (PyErr.nameError "error")

/-- What check_bluecoat observed from the webdriver session. -/
inductive BluecoatOutcome
| ok (text : String)
| exn
deriving DecidableEq

/-- Lines 182-206 of review.py. The method contains no try/except at all:
any WebDriver fault (driver start-up, element lookup, script execution)
propagates to the caller. On success it returns the category element's
`.text` — a string. -/
def check_bluecoat (o : BluecoatOutcome) : Except PyErr String :=
  match o with
  | .ok text => Except.ok text
  | .exn => Except.error PyErr.webDriverError

/-- State observed by one solve_captcha call (lines 208-234 of review.py):
whether `session.get` raised, the status test, the OCR outcome (`none` when
`Image.open`/`pytesseract` raised) and whether `os.remove` succeeded. -/
structure CaptchaEnv where
  downloadRaises : Bool
  statusOk : Bool
  ocrOk : Option String
  removeOk : Bool
deriving DecidableEq

/-- Line 225 of review.py:
`text.replace(" ", "").replace("[", "l").replace("'", "")`, rendered
character-wise (each pattern is a single character and the replacements
introduce no new matches, so the chained replaces equal this pipeline). -/
def captchaPostprocess (t : String) : String :=
  String.mk
    (((t.data.filter (fun c => c ≠ ' ')).map (fun c => if c = '[' then 'l' else c)).filter
      (fun c => c ≠ '\x27'))

/-- Lines 208-234 of review.py. Result: the returned value (`none` stands for
Python's `False`) paired with whether `captcha.jpg` is left on disk after the
call, assuming it did not exist before. The file is written only after a 200
download; `os.remove` runs only on the successful-OCR path, with OSError
swallowed; when OCR raises after the write, the outer handler returns False
without removing the file. -/
def solve_captcha (env : CaptchaEnv) : Option String × Bool :=
  if env.downloadRaises then (none, false)
  else if env.statusOk = false then (none, false)
  else
    match env.ocrOk with
    | none => (none, true)
    | some raw =>
        if env.removeOk then (some (captchaPostprocess raw), false)
        else (some (captchaPostprocess raw), true)

/-- Split a character list at every occurrence of a separator, keeping empty
segments, like Python `str.split(sep)`. -/
def splitOnChar (sep : Char) : List Char → List (List Char)
  | [] => [[]]
  | c :: rest =>
      let r := splitOnChar sep rest
      if c = sep then [] :: r
      else (c :: r.headD []) :: r.tail

/-- Stated from the claim's wording for C4 ("the domain's name appears verbatim
as one line of the downloaded feed"); used only to contrast with the
substring test the source actually performs at line 475. -/
def specLineOfFeed (domain_name feed : String) : Bool :=
  (splitOnChar '\n' feed.data).any (fun l => decide (l = domain_name.data))

/-- A VirusTotal JSON with every optional key absent. -/
def emptyVt : VtJson :=
  { categories := none, detected_downloaded_samples := none, detected_urls := none,
    resolutions := none }

/-- Source results where VirusTotal succeeded with an empty report and every
other source contributed nothing. -/
def emptySources : SourceResults :=
  { vt := some emptyVt, cymon := fun _ => false, xforce := [], talos := [], bluecoat := "",
    fortiguard := [], opendns := [], trendmicro := [], mxtoolbox := [],
    websense := .ofList [] }

/-- Sources where only MXToolbox reported something. -/
def c6src : SourceResults :=
  { emptySources with mxtoolbox := ["spam"] }

/-- VirusTotal JSON carrying one passive-DNS resolution. -/
def c9vt : VtJson :=
  { categories := none, detected_downloaded_samples := none, detected_urls := none,
    resolutions := some [{ ip_address := "1.2.3.4", last_resolved := "2020-01-01 00:00:00" }] }

/-- Sources whose secondary IP-reputation check flags exactly 1.2.3.4. -/
def c9src : SourceResults :=
  { emptySources with vt := some c9vt, cymon := fun ip => ip == "1.2.3.4" }

/-! Helper lemmas. -/

lemma malwareStep_eq (md : Option String) (dn : String) (s : BurnState) :
    malwareStep md dn s =
      (s.1 || malwareFlagged md dn,
       s.2 ++ if malwareFlagged md dn then ["Flagged by malwaredomains.com"] else []) := by
  cases md with
  | none => simp [malwareStep, malwareFlagged]
  | some feed =>
      by_cases h1 : feed = ""
      · simp [malwareStep, malwareFlagged, h1]
      · by_cases h2 : pyStrIn dn feed = true
        · simp [malwareStep, malwareFlagged, h1, h2]
        · simp [malwareStep, malwareFlagged, h1, h2]

lemma samplesStep_eq (vt : VtJson) (s : BurnState) :
    samplesStep vt s =
      (s.1 || samplesFlagged vt,
       s.2 ++ if samplesFlagged vt then ["Tied to a VirusTotal detected malware sample"] else []) := by
  cases h : vt.detected_downloaded_samples with
  | none => simp [samplesStep, samplesFlagged, h]
  | some samples =>
      by_cases h2 : 0 < samples.length
      · simp [samplesStep, samplesFlagged, h, h2]
      · simp [samplesStep, samplesFlagged, h, h2]

lemma urlsStep_eq (vt : VtJson) (s : BurnState) :
    urlsStep vt s =
      (s.1 || urlsFlagged vt,
       s.2 ++ if urlsFlagged vt then ["Tied to a VirusTotal detected URL"] else []) := by
  cases h : vt.detected_urls with
  | none => simp [urlsStep, urlsFlagged, h]
  | some urls =>
      by_cases h2 : 0 < urls.length
      · simp [urlsStep, urlsFlagged, h, h2]
      · simp [urlsStep, urlsFlagged, h, h2]

lemma categoryStep_eq (bc : List String) (s : BurnState) :
    categoryStep bc s =
      (s.1 || decide (0 < bc.length),
       s.2 ++ if 0 < bc.length then ["Tagged with a bad category"] else []) := by
  by_cases h : 0 < bc.length
  · simp [categoryStep, h]
  · simp [categoryStep, h]

lemma burnOutcome_unfold (md : Option String) (dn : String) (vt : VtJson) (bc : List String) :
    burnOutcome md dn vt bc =
      categoryStep bc (urlsStep vt (samplesStep vt (malwareStep md dn (false, [])))) := rfl

lemma burnOutcome_eq (md : Option String) (dn : String) (vt : VtJson) (bc : List String) :
    burnOutcome md dn vt bc =
      (malwareFlagged md dn || samplesFlagged vt || urlsFlagged vt || decide (0 < bc.length),
       (if malwareFlagged md dn then ["Flagged by malwaredomains.com"] else []) ++
       (if samplesFlagged vt then ["Tied to a VirusTotal detected malware sample"] else []) ++
       (if urlsFlagged vt then ["Tied to a VirusTotal detected URL"] else []) ++
       (if 0 < bc.length then ["Tagged with a bad category"] else [])) := by
  rw [burnOutcome_unfold, malwareStep_eq, samplesStep_eq, urlsStep_eq, categoryStep_eq]
  simp [List.append_assoc]

lemma step_mono_append (md : Option String) (dn : String) (vt : VtJson) (bc : List String)
    (f : BurnState → BurnState) (hf : f ∈ burnSteps md dn vt bc) (s : BurnState) :
    (s.1 = true → (f s).1 = true) ∧ ∃ t, (f s).2 = s.2 ++ t := by
  simp only [burnSteps, List.mem_cons, List.not_mem_nil, or_false] at hf
  rcases hf with h | h | h | h <;> subst h
  · rw [malwareStep_eq]
    exact ⟨fun h => by simp [h], ⟨_, rfl⟩⟩
  · rw [samplesStep_eq]
    exact ⟨fun h => by simp [h], ⟨_, rfl⟩⟩
  · rw [urlsStep_eq]
    exact ⟨fun h => by simp [h], ⟨_, rfl⟩⟩
  · rw [categoryStep_eq]
    exact ⟨fun h => by simp [h], ⟨_, rfl⟩⟩

lemma chain_mono_append (l : List (BurnState → BurnState))
    (hl : ∀ f ∈ l, ∀ s : BurnState, (s.1 = true → (f s).1 = true) ∧ ∃ t, (f s).2 = s.2 ++ t) :
    ∀ s : BurnState, (s.1 = true → (applyChain l s).1 = true) ∧
      ∃ t, (applyChain l s).2 = s.2 ++ t := by
  induction l with
  | nil => exact fun s => ⟨fun h => h, ⟨[], by simp [applyChain]⟩⟩
  | cons f l ih =>
      intro s
      have hf := hl f (by simp) s
      have hrest := ih (fun g hg s' => hl g (by simp [hg]) s') (f s)
      have happ : applyChain (f :: l) s = applyChain l (f s) := rfl
      refine ⟨fun hs => by rw [happ]; exact hrest.1 (hf.1 hs), ?_⟩
      rcases hf.2 with ⟨t₁, ht₁⟩
      rcases hrest.2 with ⟨t₂, ht₂⟩
      exact ⟨t₁ ++ t₂, by rw [happ, ht₂, ht₁, List.append_assoc]⟩

lemma dnsFoldAux (cymon : String → Bool) :
    ∀ (ips : List (String × String)) (b : Bool) (acc : List String),
      ips.foldl
        (fun st address =>
          if cymon address.1 then (true, st.2 ++ [address.1 ++ "/" ++ address.2]) else st)
        (b, acc) =
      (b || ips.any (fun a => cymon a.1),
       acc ++ (ips.filter (fun a => cymon a.1)).map (fun a => a.1 ++ "/" ++ a.2))
  | [], b, acc => by simp
  | ip :: rest, b, acc => by
      by_cases h : cymon ip.1 = true
      · simp only [List.foldl_cons, h, if_pos]
        rw [dnsFoldAux cymon rest true (acc ++ [ip.1 ++ "/" ++ ip.2])]
        simp [h, List.append_assoc]
      · simp only [List.foldl_cons, if_neg h]
        rw [dnsFoldAux cymon rest b acc]
        simp [h]

lemma any_over_map {α β : Type} (g : α → β) (p : β → Bool) (l : List α) :
    (l.map g).any p = l.any (fun a => p (g a)) := by
  induction l with
  | nil => rfl
  | cons a l ih => simp [ih]

lemma filter_over_map {α β : Type} (g : α → β) (p : β → Bool) (l : List α) :
    (l.map g).filter p = (l.filter (fun a => p (g a))).map g := by
  induction l with
  | nil => rfl
  | cons a l ih =>
      by_cases h : p (g a) = true
      · simp [List.filter_cons, h, ih]
      · simp [List.filter_cons, h, ih]

lemma dnsScan_health (vt : VtJson) (cymon : String → Bool) :
    (dnsScan vt cymon).health_dns =
      if (vt.resolutions.getD []).any (fun a => cymon a.ip_address) then
        "Flagged DNS (" ++
          joinComma (((vt.resolutions.getD []).filter (fun a => cymon a.ip_address)).map
            (fun a => a.ip_address ++ "/" ++ pySplitFirst a.last_resolved)) ++ ")"
      else "Healthy" := by
  have h := dnsFoldAux cymon
    ((vt.resolutions.getD []).map
      (fun address => (address.ip_address, pySplitFirst address.last_resolved))) false []
  simp only [dnsScan, dnsFold, h, Bool.false_or, List.nil_append]
  rw [any_over_map, filter_over_map, List.map_map]
  rfl

lemma runPass_ok (md : Option String) :
    ∀ (ds : List (DomainRecord × SourceResults)) (acc res : List (DomainRecord × Report)),
      runPass md acc ds = Except.ok res → res = acc
  | [], acc, res, h => by
      simp only [runPass, Except.ok.injEq] at h
      exact h.symm
  | d :: rest, acc, res, h => by
      by_cases hd : d.1.health_status ≠ "Healthy"
      · rw [runPass, if_pos hd] at h
        cases hev : evalDomain md d.1.name d.2 <;> rw [hev] at h <;> simp at h
      · rw [runPass, if_neg hd] at h
        exact runPass_ok md rest acc res h

/-! Claim theorems. -/

/-- C1 (code bug): the claim says a failure of any single reputation source —
including the primary VirusTotal lookup returning no usable data — never
aborts the evaluation of a domain's remaining signals. In the source, when
check_virustotal returns None, line 481 (`'categories' in vt_results`)
raises TypeError and evaluation of the domain aborts; by contrast, when
VirusTotal succeeds and every other source fails (each contributing its
empty failure result), the domain does receive a report computed from the
surviving signals alone. -/
theorem C1_vt_failure_aborts :
    evalDomain (some "feed.example") "example.com" { emptySources with vt := none } =
      Except.error PyErr.typeError
    ∧ evalDomain (some "feed.example") "example.com" emptySources =
        Except.ok
          { burned := false, burned_explanation := "", health_dns := "Healthy",
            categories_all := "", categories_bad := "", categories_talos := "",
            categories_xforce := "", categories_opendns := "", categories_bluecoat := "",
            categories_mxtoolbox := "", categories_fortiguard := "",
            categories_trendmicro := "", categories_websense := "" } :=
  ⟨rfl, rfl⟩

/-- C2 (code bug): the claim says no source-adapter check method ever raises
past its own boundary. In the source, check_ibm_xforce's bare except handler
references the unbound name `error`, so a failed request makes the handler
itself raise NameError; and check_bluecoat contains no exception handling at
all, so any WebDriver fault propagates to the caller. -/
theorem C2_adapter_raises :
    check_ibm_xforce XforceOutcome.exn = Except.error (PyErr.nameError "error")
    ∧ check_bluecoat BluecoatOutcome.exn = Except.error PyErr.webDriverError :=
  ⟨rfl, rfl⟩

/-- C3: within one pass, along the source-ordered burn rules (malware feed,
detected samples, detected URLs, blacklisted category), once the burned flag
is true after some prefix of the rules it stays true through the remaining
rules, and the remaining rules only append to the prefix's explanation list;
the burned flag assembled into the report is the result of exactly this
chain started at (false, []). -/
theorem C3_burn_monotonic (md : Option String) (dn : String) (vt : VtJson)
    (bc : List String) (l₁ l₂ : List (BurnState → BurnState))
    (h : burnSteps md dn vt bc = l₁ ++ l₂) (s : BurnState) (src : SourceResults) :
    ((applyChain l₁ s).1 = true → (applyChain (burnSteps md dn vt bc) s).1 = true)
    ∧ (∃ t, (applyChain (burnSteps md dn vt bc) s).2 = (applyChain l₁ s).2 ++ t)
    ∧ (evalReport md dn vt src).burned =
        (burnOutcome md dn vt (badCategories (aggregateCategories vt src))).1 := by
  have hmem : ∀ f ∈ l₂, ∀ s' : BurnState,
      (s'.1 = true → (f s').1 = true) ∧ ∃ t, (f s').2 = s'.2 ++ t := by
    intro f hf s'
    exact step_mono_append md dn vt bc f (by rw [h]; exact List.mem_append_right l₁ hf) s'
  have hchain := chain_mono_append l₂ hmem (applyChain l₁ s)
  have happ : applyChain (burnSteps md dn vt bc) s = applyChain l₂ (applyChain l₁ s) := by
    rw [h]
    simp [applyChain, List.foldl_append]
  exact ⟨fun hs => by rw [happ]; exact hchain.1 hs, by rw [happ]; exact hchain.2, rfl⟩

/-- Witness for C3_burn_monotonic: concrete instantiation, the split
hypothesis `burnSteps … = [] ++ burnSteps …` holding definitionally and the
start state already burned with one explanation. -/
theorem C3_witness :
    ((applyChain [] (true, ["seed"])).1 = true →
        (applyChain (burnSteps (some "feed.example") "x.com" emptyVt []) (true, ["seed"])).1 =
          true)
    ∧ (∃ t, (applyChain (burnSteps (some "feed.example") "x.com" emptyVt []) (true, ["seed"])).2 =
        (applyChain [] (true, ["seed"])).2 ++ t)
    ∧ (evalReport (some "feed.example") "x.com" emptyVt emptySources).burned =
        (burnOutcome (some "feed.example") "x.com" emptyVt
          (badCategories (aggregateCategories emptyVt emptySources))).1 :=
  C3_burn_monotonic (some "feed.example") "x.com" emptyVt [] []
    (burnSteps (some "feed.example") "x.com" emptyVt []) rfl (true, ["seed"]) emptySources

/-- C4 counterexample: with feed text "evil-example.com" — which has no line
equal to "example.com" — the source still flags "example.com" and burns it,
because the membership test at line 475 is a substring test on the feed
text, not a line-membership test; the claim's "exactly when its name appears
verbatim as one line" is therefore false. -/
theorem C4_counterexample :
    specLineOfFeed "example.com" "evil-example.com" = false
    ∧ (evalReport (some "evil-example.com") "example.com" emptyVt emptySources).burned = true
    ∧ (evalReport (some "evil-example.com") "example.com" emptyVt
        emptySources).burned_explanation = "Flagged by malwaredomains.com" :=
  ⟨rfl, rfl, rfl⟩

/-- C4 amended: the malware-feed rule flags the domain exactly when its name
occurs as a contiguous substring of the (non-empty) downloaded feed text;
when it does, burned is true and the explanation
"Flagged by malwaredomains.com" is recorded, regardless of every other
source's outcome (the VirusTotal data and bad-category list are universally
quantified). -/
theorem C4_substring_flag (feed dn : String) (vt : VtJson) (bc : List String)
    (hfeed : feed ≠ "") :
    ("Flagged by malwaredomains.com" ∈ (burnOutcome (some feed) dn vt bc).2 ↔
        pyStrIn dn feed = true)
    ∧ (pyStrIn dn feed = true → (burnOutcome (some feed) dn vt bc).1 = true) := by
  have hmf : malwareFlagged (some feed) dn = pyStrIn dn feed := by
    simp [malwareFlagged, hfeed]
  constructor
  · rw [burnOutcome_eq]
    by_cases hp : pyStrIn dn feed = true
    · simp [hmf, hp]
    · have hp' : pyStrIn dn feed = false := by
        cases hval : pyStrIn dn feed
        · rfl
        · exact absurd hval hp
      cases hsf : samplesFlagged vt <;> cases huf : urlsFlagged vt <;>
        by_cases hbc : 0 < bc.length <;>
          simp [hmf, hp', hsf, huf, hbc]
  · intro hp
    rw [burnOutcome_eq]
    simp [hmf, hp]

/-- Witness for C4_substring_flag at the counterexample input. -/
theorem C4_witness :
    ("Flagged by malwaredomains.com" ∈
        (burnOutcome (some "evil-example.com") "example.com" emptyVt []).2 ↔
      pyStrIn "example.com" "evil-example.com" = true)
    ∧ (pyStrIn "example.com" "evil-example.com" = true →
        (burnOutcome (some "evil-example.com") "example.com" emptyVt []).1 = true) :=
  C4_substring_flag "evil-example.com" "example.com" emptyVt [] (by decide)

/-- C5: a domain whose recorded health_status is Healthy is skipped: the loop
step for it equals the loop over the remaining domains alone (so none of its
source checks are consulted and no fields are computed for it), no entry for
it appears in any successfully returned mapping, a non-Healthy domain is
evaluated (its VirusTotal data is consulted — observable here because the
evaluation fails when that lookup failed), and the burned flag of any
assembled report is exactly the disjunction of the four burn rules, i.e. the
evaluation starts from burned = false rather than inheriting the previous
status. -/
theorem C5_healthy_short_circuit (md : Option String) (rec : DomainRecord)
    (src : SourceResults) (rest : List (DomainRecord × SourceResults))
    (acc : List (DomainRecord × Report)) (h : rec.health_status = "Healthy") :
    runPass md acc ((rec, src) :: rest) = runPass md acc rest
    ∧ (∀ ds res, check_domain_status md ds = Except.ok res → ∀ r : Report, (rec, r) ∉ res)
    ∧ (∀ (rec₂ : DomainRecord) (src₂ : SourceResults), rec₂.health_status ≠ "Healthy" →
        src₂.vt = none →
        runPass md acc ((rec₂, src₂) :: rest) = Except.error PyErr.typeError)
    ∧ (∀ (dn : String) (vt : VtJson) (src₂ : SourceResults),
        (evalReport md dn vt src₂).burned =
          (malwareFlagged md dn || samplesFlagged vt || urlsFlagged vt ||
            decide (0 < (badCategories (aggregateCategories vt src₂)).length))) := by
  refine ⟨?_, ?_, ?_, ?_⟩
  · simp [runPass, h]
  · intro ds res hok r hmem
    have hres : res = [] := runPass_ok md ds [] res hok
    rw [hres] at hmem
    exact List.not_mem_nil _ hmem
  · intro rec₂ src₂ h2 hvt
    simp [runPass, h2, evalDomain, hvt]
  · intro dn vt src₂
    have hb : (evalReport md dn vt src₂).burned =
        (burnOutcome md dn vt (badCategories (aggregateCategories vt src₂))).1 := rfl
    rw [hb, burnOutcome_eq]

/-- Witness for C5_healthy_short_circuit at a concrete Healthy record. -/
theorem C5_witness :
    runPass none [] ((⟨"healthy.example", "Healthy"⟩, emptySources) :: []) = runPass none [] []
    ∧ (∀ ds res, check_domain_status none ds = Except.ok res →
        ∀ r : Report, ((⟨"healthy.example", "Healthy"⟩ : DomainRecord), r) ∉ res)
    ∧ (∀ (rec₂ : DomainRecord) (src₂ : SourceResults), rec₂.health_status ≠ "Healthy" →
        src₂.vt = none →
        runPass none [] ((rec₂, src₂) :: []) = Except.error PyErr.typeError)
    ∧ (∀ (dn : String) (vt : VtJson) (src₂ : SourceResults),
        (evalReport none dn vt src₂).burned =
          (malwareFlagged none dn || samplesFlagged vt || urlsFlagged vt ||
            decide (0 < (badCategories (aggregateCategories vt src₂)).length))) :=
  C5_healthy_short_circuit none ⟨"healthy.example", "Healthy"⟩ emptySources [] [] rfl

/-- C6 counterexample: MXToolbox is the only source reporting a category, yet
the aggregate is empty — line 523 extends `domain_categories` with itself
instead of with `mxtoolbox_results`, so a category returned by a source is
missing from the aggregate and the claimed union property is false. -/
theorem C6_counterexample :
    c6src.mxtoolbox = ["spam"] ∧ aggregateCategories emptyVt c6src = [] :=
  ⟨rfl, rfl⟩

/-- C6 amended: the aggregate used for blacklist checking is duplicate-free
and contains exactly the categories of VirusTotal, X-Force, Talos,
Fortiguard, OpenDNS, TrendMicro and Websense together with the
one-character strings of Bluecoat's result text (a string, iterated
character-wise by list.extend); MXToolbox's results never enter it — the
aggregate is invariant in the mxtoolbox field. -/
theorem C6_aggregate_union (vt : VtJson) (src : SourceResults) (c : String) :
    (c ∈ aggregateCategories vt src ↔
      (c ∈ vt.categories.getD [] ∨ c ∈ src.xforce ∨ c ∈ src.talos ∨
       c ∈ (PyStrIterable.ofStr src.bluecoat).toItems ∨ c ∈ src.fortiguard ∨
       c ∈ src.opendns ∨ c ∈ src.trendmicro ∨ c ∈ src.websense.toItems))
    ∧ (aggregateCategories vt src).Nodup
    ∧ (∀ mx, aggregateCategories vt { src with mxtoolbox := mx } =
        aggregateCategories vt src) := by
  refine ⟨?_, ?_, fun mx => rfl⟩
  · simp only [aggregateCategories, List.mem_dedup, List.mem_append]
    tauto
  · unfold aggregateCategories
    exact List.nodup_dedup _

/-- C7 counterexample: the deduplicated aggregate can contain two casings of
one word; both match the blacklist and both capitalize to the same display
form, so the produced bad-category list contains duplicates, contradicting
the claim's "with no duplicates". -/
theorem C7_counterexample :
    (["PHISHING", "phishing"] : List String).Nodup
    ∧ badCategories ["PHISHING", "phishing"] = ["Phishing", "Phishing"]
    ∧ ¬ (badCategories ["PHISHING", "phishing"]).Nodup := by
  refine ⟨by decide, rfl, by decide⟩

/-- C7 amended: blacklist matching is case-insensitive — a category matches
exactly when its lower-casing equals a denylist entry, so any two strings
with the same lower-casing match alike, and Phishing/PHISHING/phishing all
match — and the bad-category output consists of capitalize(c) for exactly
the aggregated categories c that matched (it is not deduplicated after
capitalization). -/
theorem C7_blacklist_case (c₁ c₂ x : String) (cats : List String)
    (h : pyLower c₁ = pyLower c₂) :
    blacklistMatch c₁ = blacklistMatch c₂
    ∧ (blacklistMatch c₁ = true ↔ pyLower c₁ ∈ blacklisted)
    ∧ (x ∈ badCategories cats ↔ ∃ c, c ∈ cats ∧ blacklistMatch c = true ∧ x = pyCapitalize c)
    ∧ blacklistMatch "Phishing" = true ∧ blacklistMatch "PHISHING" = true
    ∧ blacklistMatch "phishing" = true := by
  refine ⟨?_, ?_, ?_, by decide, by decide, by decide⟩
  · unfold blacklistMatch
    rw [h]
  · unfold blacklistMatch List.contains
    exact List.elem_iff
  · constructor
    · intro hx
      simp only [badCategories, List.mem_map, List.mem_filter] at hx
      rcases hx with ⟨c, ⟨hc, hm⟩, hcap⟩
      exact ⟨c, hc, hm, hcap.symm⟩
    · rintro ⟨c, hc, hm, hcap⟩
      simp only [badCategories, List.mem_map, List.mem_filter]
      exact ⟨c, ⟨hc, hm⟩, hcap.symm⟩

/-- Witness for C7_blacklist_case: two distinct casings with the same
lower-casing. -/
theorem C7_witness :
    blacklistMatch "PHISHING" = blacklistMatch "Phishing"
    ∧ (blacklistMatch "PHISHING" = true ↔ pyLower "PHISHING" ∈ blacklisted)
    ∧ ("Phishing" ∈ badCategories ["PHISHING"] ↔
        ∃ c, c ∈ ["PHISHING"] ∧ blacklistMatch c = true ∧ "Phishing" = pyCapitalize c)
    ∧ blacklistMatch "Phishing" = true ∧ blacklistMatch "PHISHING" = true
    ∧ blacklistMatch "phishing" = true :=
  C7_blacklist_case "PHISHING" "Phishing" "Phishing" ["PHISHING"] (by decide)

/-- C8 counterexample: a download that succeeds followed by an OCR fault
returns the failure value, but the captcha.jpg written before the fault is
left on disk — the claim's "removed on every exit path, including the paths
where OCR fails" is false. -/
theorem C8_counterexample :
    solve_captcha { downloadRaises := false, statusOk := true, ocrOk := none, removeOk := true } =
      (none, true) := rfl

/-- C8 amended: on any download or OCR fault the solver returns the failure
value rather than raising (the returned value is `none` exactly on the fault
paths), and the transient image file survives the call exactly when it was
written (download succeeded with status 200) and then either OCR raised or
os.remove itself failed — i.e. it is removed only on the successful-OCR
path with a successful removal, not on every exit path. -/
theorem C8_captcha (env : CaptchaEnv) :
    ((solve_captcha env).1 = none ↔
      env.downloadRaises = true ∨ env.statusOk = false ∨ env.ocrOk = none)
    ∧ ((solve_captcha env).2 = true ↔
      env.downloadRaises = false ∧ env.statusOk = true ∧
        (env.ocrOk = none ∨ env.removeOk = false)) := by
  rcases env with ⟨dr, so, ocr, ro⟩
  cases dr <;> cases so <;> rcases ocr with _ | raw <;> cases ro <;>
    simp [solve_captcha]

/-- C9: for every evaluated domain (VirusTotal succeeded), each passive-DNS
address is checked against check_cymon; health_dns is the Flagged DNS value
listing each flagged address joined with the date part of its last_resolved
timestamp when at least one address is flagged, and Healthy otherwise; and
the cymon verdicts influence neither the burned flag nor the explanations. -/
theorem C9_passive_dns (md : Option String) (dn : String) (src : SourceResults) (vt : VtJson)
    (h : src.vt = some vt) :
    evalDomain md dn src = Except.ok (evalReport md dn vt src)
    ∧ ((evalReport md dn vt src).health_dns =
        if (vt.resolutions.getD []).any (fun a => src.cymon a.ip_address) then
          "Flagged DNS (" ++
            joinComma (((vt.resolutions.getD []).filter (fun a => src.cymon a.ip_address)).map
              (fun a => a.ip_address ++ "/" ++ pySplitFirst a.last_resolved)) ++ ")"
        else "Healthy")
    ∧ (∀ cy : String → Bool,
        (evalReport md dn vt { src with cymon := cy }).burned = (evalReport md dn vt src).burned
        ∧ (evalReport md dn vt { src with cymon := cy }).burned_explanation =
            (evalReport md dn vt src).burned_explanation) := by
  refine ⟨?_, ?_, fun cy => ⟨rfl, rfl⟩⟩
  · simp [evalDomain, h]
  · have hd : (evalReport md dn vt src).health_dns = (dnsScan vt src.cymon).health_dns := rfl
    rw [hd, dnsScan_health]

/-- Witness for C9_passive_dns: the spec's scenario — one resolution
1.2.3.4 at 2020-01-01 00:00:00, flagged by the secondary source. -/
theorem C9_witness :
    c9src.vt = some c9vt
    ∧ evalDomain none "example.com" c9src = Except.ok (evalReport none "example.com" c9vt c9src)
    ∧ (evalReport none "example.com" c9vt c9src).health_dns =
        "Flagged DNS (1.2.3.4/2020-01-01)" := by
  refine ⟨rfl, (C9_passive_dns none "example.com" c9src c9vt rfl).1, ?_⟩
  rw [(C9_passive_dns none "example.com" c9src c9vt rfl).2.1]
  rfl

/-- C10 (code bug): the default inter-domain delay is indeed 20 when no
sleep_time is configured, but the delay is never applied — line 553 calls
`sleep(self.request_delay)` while the module only does `import time` and
never binds `sleep`, so the first evaluated domain's iteration raises
NameError after its report is assembled, instead of pausing. -/
theorem C10_sleep_bug :
    requestDelay none = 20
    ∧ check_domain_status (some "feed.example")
        [(⟨"example.com", "Burned"⟩, emptySources)] = Except.error (PyErr.nameError "sleep") :=
  ⟨rfl, rfl⟩
